import Mathlib

/-!
# Verification of the Trigger-Deployment cluster command executor

A shallow embedding of the kubectl-facing code of the Trigger-Deployment
repository (versions 1, 2 and 4 of the Flask application), together with
theorems settling the specification claims about it.

Python strings that undergo character-level processing (splitting on
whitespace, stripping, integer parsing) are modelled as `List Char`;
strings that are only moved around are modelled as `String`.
External process behaviour (exit code, captured streams, timeouts) is an
explicit parameter of each embedded function, so the embedding stays pure.
-/

set_option autoImplicit false

namespace TriggerDeployment

/-! ## Python string primitives -/

/-- Python whitespace predicate for `str.split` / `str.strip`
(ASCII whitespace characters). -/
def isWs (c : Char) : Bool :=
  c == ' ' || c == '\t' || c == '\n' || c == '\r' ||
  c == Char.ofNat 11 || c == Char.ofNat 12

/-- Accumulator-passing worker for Python `str.split()` (split on runs of
whitespace, discarding empty fields). The accumulator holds the current
token reversed. -/
def splitWsAux : List Char → List Char → List (List Char)
  | [], [] => []
  | [], acc => [acc.reverse]
  | c :: cs, acc =>
    if isWs c then
      match acc with
      | [] => splitWsAux cs []
      | _ :: _ => acc.reverse :: splitWsAux cs []
    else splitWsAux cs (c :: acc)

/-- Python `s.split()`. -/
def splitWs (s : List Char) : List (List Char) := splitWsAux s []

/-- The first whitespace-separated token of a string, i.e. `s.split()[0]`
when it exists: drop leading whitespace, then take the maximal run of
non-whitespace characters. -/
def firstToken (s : List Char) : Option (List Char) :=
  match s.dropWhile isWs with
  | [] => none
  | c :: cs => some ((c :: cs).takeWhile (fun d => !isWs d))

/-- Python `s.startswith(p)`, on character lists (`startsWith p s`). -/
def pyStartsWith : List Char → List Char → Bool
  | [], _ => true
  | _ :: _, [] => false
  | p :: ps, c :: cs => p == c && pyStartsWith ps cs

/-- Drop trailing whitespace. -/
def dropTrailWs (l : List Char) : List Char :=
  (l.reverse.dropWhile isWs).reverse

/-- Python `s.strip()` on character lists: drop leading and trailing
whitespace. -/
def stripWs (l : List Char) : List Char :=
  dropTrailWs (l.dropWhile isWs)

/-- Python `s.strip()` on `String`. -/
def pstrip (s : String) : String := ⟨stripWs s.data⟩

/-! ## Python `int()` on strings

`int(s)` accepts optional surrounding whitespace, an optional sign, and a
run of decimal digits possibly separated by single underscores; anything
else raises `ValueError`, modelled as `none`. -/

/-- Decimal digit value of a character, if it is a digit. -/
def digitVal (c : Char) : Option Nat :=
  if '0' ≤ c ∧ c ≤ '9' then some (c.toNat - '0'.toNat) else none

/-- Parse the remainder of a digit run: each further character is a digit,
or a single underscore followed by a digit. -/
def digitsRest : Nat → List Char → Option Nat
  | acc, [] => some acc
  | acc, '_' :: c :: cs =>
    match digitVal c with
    | some d => digitsRest (acc * 10 + d) cs
    | none => none
  | _, ['_'] => none
  | acc, c :: cs =>
    match digitVal c with
    | some d => digitsRest (acc * 10 + d) cs
    | none => none

/-- Parse a non-empty underscore-separated digit run. -/
def parseUDigits : List Char → Option Nat
  | [] => none
  | c :: cs =>
    match digitVal c with
    | some d => digitsRest d cs
    | none => none

/-- Python `int(s)` for a decimal string: strip whitespace, optional
sign, digits (single underscores allowed between digits). -/
def pythonInt (s : List Char) : Option Int :=
  match stripWs s with
  | '+' :: rest => (parseUDigits rest).map Int.ofNat
  | '-' :: rest => (parseUDigits rest).map (fun n => -(Int.ofNat n : Int))
  | rest => (parseUDigits rest).map Int.ofNat

/-! ## External process model

Each embedded function that shells out takes the behaviour of the external
process(es) as a parameter: exit code and captured text streams, or a
timeout expiry.  The records spawned by a call are collected explicitly so
that theorems can speak about which processes were (not) started. -/

/-- Result of a completed external process: exit code and captured
stdout/stderr text. -/
structure ProcResult where
  rc : Int
  out : String
  err : String
deriving DecidableEq, Repr

/-- Behaviour of an external process invocation that may be bounded by a
timeout: it either exits, or fails to exit within the timeout. -/
inductive ProcBehavior where
  | exits (r : ProcResult)
  | timesOut
deriving DecidableEq, Repr

/-- A recorded process spawn: argument vector, the environment passed to
the child, optional stdin text, and the timeout (in seconds) the caller
imposed, `none` when the call has no timeout at all. -/
structure Spawn where
  argv : List String
  env : List (String × String)
  stdinText : Option String
  timeoutSec : Option Nat
deriving DecidableEq, Repr

/-- Python `s or default` for strings: `default` when `s` is empty. -/
def orDefault (s d : String) : String := if s = "" then d else s

/-- Association-list lookup modelling `request.form.get(key)`. -/
def formGet (form : List (String × String)) (key : String) : Option String :=
  match form.find? (fun kv => kv.1 == key) with
  | some kv => some kv.2
  | none => none

/-- Model of `os.environ.copy()` followed by `env[key] = value`: set a key in an
association-list environment (replacing any earlier binding). -/
def envSet (env : List (String × String)) (key value : String) :
    List (String × String) :=
  (key, value) :: env.filter (fun kv => kv.1 ≠ key)

/-! ## version2/version4 `execute_custom` (the ArbitraryCommand gate)

Embeds `execute_custom` of `src/version2/.../app.py` (lines 249-283) and
`src/version4/app.py` (lines 531-578), which are textually identical at
this granularity.  The input `command` is the form field after `.strip()`
(performed by the handler at extraction time).  The handler either rejects
the command (flash + redirect, no subprocess call on that path) or spawns
`command.split()` via `execute_kubectl_command`. -/

/-- The string `'kubectl'` as a character list. -/
def kubectlTok : List Char := ['k', 'u', 'b', 'e', 'c', 't', 'l']

/-- The string `'kubectl '` (with trailing space) as a character list. -/
def kubectlSp : List Char := kubectlTok ++ [' ']

/-- The two rejection branches of `execute_custom` that return before any
subprocess call. -/
inductive RejectReason where
  | emptyCommand
  | untrustedCommand
deriving DecidableEq, Repr

/-- Decision taken by `execute_custom`: reject before spawning, or spawn
`kubectl` with the split argument vector. -/
inductive CustomDecision where
  | reject (r : RejectReason)
  | spawnArgs (argv : List (List Char))
deriving DecidableEq, Repr

/-- The control-flow of `execute_custom` up to the subprocess call:
`if not command` → required-field error; `if not
command.startswith('kubectl ')` → "Only kubectl commands are allowed";
otherwise `cmd_args = command.split()` is passed to
`execute_kubectl_command`. -/
def execute_custom (command : List Char) : CustomDecision :=
  if command = [] then .reject .emptyCommand
  else if pyStartsWith kubectlSp command then .spawnArgs (splitWs command)
  else .reject .untrustedCommand

/-! ## version2/version4 `execute_kubectl_command`

Embeds `execute_kubectl_command` (`src/version4/app.py` lines 116-130):
`subprocess.run(command_args, check=True, capture_output=True, text=True,
timeout=30)`; `CalledProcessError` yields `(False, e.stderr)`,
`TimeoutExpired` yields `(False, "Command timed out after 30 seconds")`. -/

/-- The invocation `execute_kubectl_command` makes for a given argument
vector: plain environment, no stdin, 30-second timeout. -/
def executeKubectlSpawn (args : List String) (env : List (String × String)) :
    Spawn :=
  { argv := args, env := env, stdinText := none, timeoutSec := some 30 }

/-- Result classification of `execute_kubectl_command`. -/
def execute_kubectl_command (beh : ProcBehavior) : Bool × String :=
  match beh with
  | .exits r => if r.rc = 0 then (true, r.out) else (false, r.err)
  | .timesOut => (false, "Command timed out after 30 seconds")

/-! ## base64 (RFC 4648) used by version1 `build_kubeconfig`

`base64.b64encode(ca_pem.encode()).decode()` — standard base64 with
padding, over a byte list (each entry `< 256`). -/

/-- The base64 alphabet. -/
def b64alphabet : List Char :=
  ['A','B','C','D','E','F','G','H','I','J','K','L','M','N','O','P',
   'Q','R','S','T','U','V','W','X','Y','Z',
   'a','b','c','d','e','f','g','h','i','j','k','l','m','n','o','p',
   'q','r','s','t','u','v','w','x','y','z',
   '0','1','2','3','4','5','6','7','8','9','+','/']

/-- Character for a 6-bit group. -/
def b64char (n : Nat) : Char := b64alphabet.getD n 'A'

/-- Standard base64 encoding with `=` padding, over bytes. -/
def base64Encode : List Nat → List Char
  | [] => []
  | [a] => [b64char (a / 4), b64char (a % 4 * 16), '=', '=']
  | [a, b] =>
    [b64char (a / 4), b64char (a % 4 * 16 + b / 16), b64char (b % 16 * 4), '=']
  | a :: b :: c :: rest =>
    b64char (a / 4) :: b64char (a % 4 * 16 + b / 16) ::
      b64char (b % 16 * 4 + c / 64) :: b64char (c % 64) :: base64Encode rest

/-! ## version1 `build_kubeconfig` (src/version1/app.py lines 51-85) -/

/-- The kubeconfig document written by `build_kubeconfig`, restricted to
the fields the claims are about.  `insecureSkipTlsVerify = false` and
`certificateAuthorityData = none` mean the respective key is absent from
the document. -/
structure KubeconfigDoc where
  server : String
  token : String
  namespaceName : String
  insecureSkipTlsVerify : Bool
  certificateAuthorityData : Option (List Char)
deriving DecidableEq, Repr

/-- Python truthiness of the `ca_pem` argument (`None` and the empty
string are falsy). -/
def caTruthy : Option (List Nat) → Bool
  | none => false
  | some l => l ≠ []

/-- The document `build_kubeconfig` assembles: base dictionary, then
`if skip_tls:` add `insecure-skip-tls-verify: True`, `elif ca_pem:` add
`certificate-authority-data: b64encode(ca_pem)`. -/
def build_kubeconfig_doc (api_server token namespaceName : String)
    (skip_tls : Bool) (ca_pem : Option (List Nat)) : KubeconfigDoc :=
  let base : KubeconfigDoc :=
    { server := api_server, token := token, namespaceName := namespaceName,
      insecureSkipTlsVerify := false, certificateAuthorityData := none }
  if skip_tls then { base with insecureSkipTlsVerify := true }
  else if caTruthy ca_pem then
    { base with
      certificateAuthorityData := some (base64Encode (ca_pem.getD [])) }
  else base

/-! ## version1 `run_kubectl_apply` (src/version1/app.py lines 88-99)

`env = os.environ.copy(); env["KUBECONFIG"] = kubeconfig_path`; a
connectivity probe `kubectl get ns`; on non-zero probe exit return
`(False, conn.stdout or "", conn.stderr or "Connectivity check failed")`
without running the apply; otherwise run
`kubectl apply -n <ns> -f -` with the YAML on stdin. -/

/-- Result of `run_kubectl_apply`: the returned triple, the spawns it
performed, and the value of `os.environ` when it returns (the source never
writes to `os.environ`; it mutates a copy). -/
structure RunApplyResult where
  ok : Bool
  stdout : String
  stderr : String
  spawns : List Spawn
  envAfter : List (String × String)
deriving DecidableEq, Repr

/-- Is this spawn the primary `kubectl apply` action? -/
def isApplySpawn (s : Spawn) : Bool := s.argv.take 2 = ["kubectl", "apply"]

/-- Embedding of `run_kubectl_apply`.  `osEnviron` is the parent process
environment; `probe` and `applyBeh` are the behaviours of the two possible
child processes (neither `subprocess.run` call passes a timeout). -/
def run_kubectl_apply (yamlText kubeconfigPath namespaceName : String)
    (osEnviron : List (String × String)) (probe : ProcResult)
    (applyBeh : ProcResult) : RunApplyResult :=
  let env := envSet osEnviron "KUBECONFIG" kubeconfigPath
  let probeSpawn : Spawn :=
    { argv := ["kubectl", "get", "ns"], env := env, stdinText := none,
      timeoutSec := none }
  if probe.rc ≠ 0 then
    { ok := false, stdout := orDefault probe.out "",
      stderr := orDefault probe.err "Connectivity check failed",
      spawns := [probeSpawn], envAfter := osEnviron }
  else
    let applySpawn : Spawn :=
      { argv := ["kubectl", "apply", "-n", namespaceName, "-f", "-"],
        env := env, stdinText := some yamlText, timeoutSec := none }
    { ok := applyBeh.rc = 0, stdout := orDefault applyBeh.out "",
      stderr := orDefault applyBeh.err "",
      spawns := [probeSpawn, applySpawn], envAfter := osEnviron }

/-! ## version1 `deploy` handler: temporary kubeconfig lifecycle
(src/version1/app.py lines 156-168, and `build_kubeconfig` 51-85)

The handler runs `kc_path = build_kubeconfig(...)` and the apply inside
`try:`, with `finally: if kc_path and os.path.exists(kc_path):
os.remove(kc_path)`.  The filesystem is modelled as the list of existing
file paths.  `build_kubeconfig` first creates the file (`mkstemp`), then
writes to it; a write failure raises after the file exists but before the
path is returned, so `kc_path` is never assigned. -/

/-- How far `build_kubeconfig` gets. -/
inductive BuildBeh where
  | ok
  | raisesBeforeCreate
  | raisesAfterCreate
deriving DecidableEq, Repr

/-- Behaviour of the `run_kubectl_apply` call as seen by the handler: it
returns a triple, or raises. -/
inductive RunBeh where
  | completes (ok : Bool) (out err : String)
  | raises (msg : String)
deriving DecidableEq, Repr

/-- Outcome of the handler body: a rendered result page, or a propagated
exception. -/
inductive DeployOutcome where
  | page (ok : Bool)
  | exception
deriving DecidableEq, Repr

/-- The try/finally of the version1 `deploy` handler, tracking the
filesystem.  `tmpPath` is the path `mkstemp` picks. -/
def deploy_cleanup (fs : List String) (tmpPath : String)
    (buildBeh : BuildBeh) (runBeh : RunBeh) : DeployOutcome × List String :=
  match buildBeh with
  | .raisesBeforeCreate => (.exception, fs)
  | .raisesAfterCreate => (.exception, tmpPath :: fs)
  | .ok =>
    let fs1 := tmpPath :: fs
    let step : DeployOutcome × List String :=
      match runBeh with
      | .completes ok _ _ => (.page ok, fs1)
      | .raises _ => (.exception, fs1)
    (step.1,
      if tmpPath ≠ "" ∧ tmpPath ∈ step.2 then step.2.erase tmpPath
      else step.2)

/-! ## version4 manifest generators (src/version4/app.py lines 132-188;
identical in version2 lines 69-125)

`int(replicas)` / `int(port)` raise `ValueError` on non-numeric input;
the generators are therefore `Option`-valued, `none` meaning the
exception propagates to the handler's `except` branch. -/

/-- The deployment manifest dictionary, restricted to the claimed
fields. -/
structure DeploymentManifest where
  apiVersion : String
  kind : String
  name : String
  namespaceName : String
  replicas : Int
  selectorMatchLabelsApp : String
  templateLabelsApp : String
  containerName : String
  containerImage : String
  containerPort : Int
deriving DecidableEq, Repr

/-- Embedding of `generate_deployment_manifest` (version4 lines
132-166). -/
def generate_deployment_manifest (name image replicas port namespaceName :
    String) : Option DeploymentManifest :=
  match pythonInt replicas.data, pythonInt port.data with
  | some r, some p =>
    some { apiVersion := "apps/v1", kind := "Deployment", name := name,
           namespaceName := namespaceName, replicas := r,
           selectorMatchLabelsApp := name, templateLabelsApp := name,
           containerName := name, containerImage := image,
           containerPort := p }
  | _, _ => none

/-- The service manifest dictionary, restricted to the claimed fields. -/
structure ServiceManifest where
  apiVersion : String
  kind : String
  name : String
  namespaceName : String
  selectorApp : String
  port : Int
  targetPort : Int
  serviceType : String
deriving DecidableEq, Repr

/-- Embedding of `generate_service_manifest` (version4 lines 168-188). -/
def generate_service_manifest (name port target_port service_type
    namespaceName : String) : Option ServiceManifest :=
  match pythonInt port.data, pythonInt target_port.data with
  | some p, some t =>
    some { apiVersion := "v1", kind := "Service", name := name,
           namespaceName := namespaceName, selectorApp := name,
           port := p, targetPort := t, serviceType := service_type }
  | _, _ => none

/-! ## version4 `create_deployment` (src/version4/app.py lines 432-487)

Form extraction, manifest generation inside `try:`, then
`subprocess.Popen(['kubectl','apply','-f','-'], ...)` /
`process.communicate(input=manifest_json)` — note `communicate` is called
with NO timeout argument.  A `ValueError` from `int()` jumps to the
`except` branch before any `Popen`. -/

/-- What `create_deployment` does after passing the name/image presence
check: raise before spawning, or spawn the apply process. -/
inductive DeployAction where
  | validationError
  | spawnApply (s : Spawn) (manifest : DeploymentManifest)
deriving DecidableEq, Repr

/-- Boolean test for the spawn branch. -/
def DeployAction.isSpawn : DeployAction → Bool
  | .validationError => false
  | .spawnApply _ _ => true

/-- The timeout of the spawned invocation, when one is spawned. -/
def DeployAction.invocationTimeout : DeployAction → Option (Option Nat)
  | .validationError => none
  | .spawnApply s _ => some s.timeoutSec

/-- Embedding of the process-facing part of `create_deployment`:
`manifest = generate_deployment_manifest(...)` then
`Popen(['kubectl','apply','-f','-'])` with the JSON on stdin and no
timeout, or the `except` branch when `int()` raised. -/
def create_deployment (name image replicas port namespaceName : String)
    (osEnviron : List (String × String)) : DeployAction :=
  match generate_deployment_manifest name image replicas port namespaceName
    with
  | none => .validationError
  | some m =>
    .spawnApply
      { argv := ["kubectl", "apply", "-f", "-"], env := osEnviron,
        stdinText := some "manifest_json", timeoutSec := none } m

/-- Form extraction of `create_service` (version4 lines 497-501) followed
by `generate_service_manifest`: `service_port` defaults to `'80'`,
`service_target_port` defaults to `'80'` (NOT to the port), name is
required. -/
def create_service_manifest (form : List (String × String)) :
    Option ServiceManifest :=
  let name := pstrip ((formGet form "service_name").getD "")
  let port := (formGet form "service_port").getD "80"
  let target_port := (formGet form "service_target_port").getD "80"
  let service_type := (formGet form "service_type").getD "ClusterIP"
  let namespaceName := pstrip ((formGet form "service_namespace").getD
    "default")
  if name = "" then none
  else generate_service_manifest name port target_port service_type
    namespaceName

/-! ## version1 `service` handler rendering (src/version1/app.py lines
171-198)

`port = request.form.get("port", "80").strip()`;
`target = request.form.get("targetPort", port).strip()` — the default for
`targetPort` is the already-stripped `port`.  The YAML interpolates the
raw strings. -/

/-- The version1 service YAML fields (interpolated as raw strings). -/
structure ServiceYamlV1 where
  name : String
  selectorApp : String
  port : String
  targetPort : String
  serviceType : String
deriving DecidableEq, Repr

/-- Embedding of the version1 `service` handler's YAML construction. -/
def service_yaml_v1 (form : List (String × String)) : ServiceYamlV1 :=
  let name := pstrip ((formGet form "name").getD "")
  let port := pstrip ((formGet form "port").getD "80")
  let target := pstrip ((formGet form "targetPort").getD port)
  { name := name, selectorApp := name, port := port, targetPort := target,
    serviceType := "ClusterIP" }

/-! ## version2/version4 `validate_cluster_connection`
(src/version2/.../app.py lines 15-51 = src/version4/app.py lines 78-114)

Four `kubectl config set-cluster/set-credentials/set-context/use-context`
invocations mutate the shared persistent kubectl configuration (the
default kubeconfig file of the server process, visible to every other
request), then `kubectl get nodes` probes the cluster.  The `config`
subcommands are local file edits and succeed; the probe may fail, in
which case `(False, e.stderr)` is returned. -/

/-- The shared persistent kubectl configuration mutated by
`kubectl config set-*` / `use-context`. -/
structure KubeCfg where
  clusters : List (String × String)
  users : List (String × String)
  contexts : List (String × String × String)
  currentContext : Option String
deriving DecidableEq, Repr

/-- The empty shared configuration. -/
def emptyKubeCfg : KubeCfg :=
  { clusters := [], users := [], contexts := [], currentContext := none }

/-- Upsert into an association list (what `kubectl config set-*` does to
its named entry). -/
def upsert (l : List (String × String)) (k v : String) :
    List (String × String) :=
  (k, v) :: l.filter (fun kv => kv.1 ≠ k)

/-- Embedding of `validate_cluster_connection`: returns the
`(success, output)` pair and the shared configuration after the call. -/
def validate_cluster_connection (endpoint token cluster_name : String)
    (cfg : KubeCfg) (probe : ProcResult) : (Bool × String) × KubeCfg :=
  let cfg1 :=
    { cfg with clusters := upsert cfg.clusters cluster_name endpoint }
  let cfg2 :=
    { cfg1 with
      users := upsert cfg1.users (cluster_name ++ "-user") token }
  let cfg3 := { cfg2 with contexts :=
    (cluster_name, cluster_name, cluster_name ++ "-user") ::
      cfg2.contexts.filter (fun c => c.1 ≠ cluster_name) }
  let cfg4 := { cfg3 with currentContext := some cluster_name }
  if probe.rc = 0 then ((true, probe.out), cfg4)
  else ((false, probe.err), cfg4)

/-! ## version4 `connect_cluster` (src/version4/app.py lines 370-413) -/

/-- The server-side session fields touched by cluster connection. -/
structure Session where
  cluster_connected : Bool
  cluster_endpoint : Option String
  cluster_name : Option String
  cluster_token : Option String
deriving DecidableEq, Repr

/-- A fresh session. -/
def emptySession : Session :=
  { cluster_connected := false, cluster_endpoint := none,
    cluster_name := none, cluster_token := none }

/-- A persisted audit record (the fields `log_audit_action` stores). -/
structure AuditRecord where
  action : String
  resource_type : String
  resource_name : String
  namespaceName : String
  cluster_name : String
  command : String
  status : String
  output : String
deriving DecidableEq, Repr

/-- Embedding of `connect_cluster`: empty-field check (no audit record on
that path), `validate_cluster_connection`, then on success store the
endpoint, name AND TOKEN in the session and log
`'Connected to cluster {name} at {endpoint}'`; on failure leave the
session and log `'Failed to connect to cluster {name} at {endpoint}'`.
Returns (session after, shared config after, audit records written). -/
def connect_cluster (endpoint cluster_name token : String) (sess : Session)
    (cfg : KubeCfg) (probe : ProcResult) :
    Session × KubeCfg × List AuditRecord :=
  if endpoint = "" ∨ cluster_name = "" ∨ token = "" then (sess, cfg, [])
  else
    let v := validate_cluster_connection endpoint token cluster_name cfg
      probe
    if v.1.1 then
      ({ cluster_connected := true, cluster_endpoint := some endpoint,
         cluster_name := some cluster_name, cluster_token := some token },
       v.2,
       [{ action := "connect_cluster", resource_type := "cluster",
          resource_name := cluster_name, namespaceName := "system",
          cluster_name := cluster_name,
          command := "Connected to cluster " ++ cluster_name ++ " at " ++
            endpoint,
          status := "success", output := v.1.2 }])
    else
      (sess, v.2,
       [{ action := "connect_cluster", resource_type := "cluster",
          resource_name := cluster_name, namespaceName := "system",
          cluster_name := cluster_name,
          command := "Failed to connect to cluster " ++ cluster_name ++
            " at " ++ endpoint,
          status := "failed", output := v.1.2 }])

/-! ## version4 `execute_yaml` (src/version4/app.py lines 580-654)

`Popen(['kubectl','apply','-f','-'] (+ ['-n', ns] when a namespace
override is given))`, `communicate(input=yaml_content, timeout=60)`; on
`TimeoutExpired` the process is killed and `'Command timed out'` is
recorded. -/

/-- Observable outcome of one `execute_yaml` run. -/
structure YamlRunResult where
  spawn : Spawn
  killed : Bool
  lastOutput : String
deriving DecidableEq, Repr

/-- Embedding of the process-facing part of `execute_yaml`. -/
def execute_yaml (yamlContent namespaceOverride : String)
    (osEnviron : List (String × String)) (beh : ProcBehavior) :
    YamlRunResult :=
  let cmd := ["kubectl", "apply", "-f", "-"] ++
    (if namespaceOverride ≠ "" then ["-n", namespaceOverride] else [])
  let s : Spawn :=
    { argv := cmd, env := osEnviron, stdinText := some yamlContent,
      timeoutSec := some 60 }
  match beh with
  | .exits r =>
    { spawn := s, killed := false,
      lastOutput := if r.rc = 0 then r.out else r.err }
  | .timesOut =>
    { spawn := s, killed := true, lastOutput := "Command timed out" }

/-! ## Helper lemmas -/

/-- Applying `dropWhile` twice equals applying it once. -/
theorem dropWhile_self_idem {α : Type} (p : α → Bool) (l : List α) :
    (l.dropWhile p).dropWhile p = l.dropWhile p := by
  induction l with
  | nil => simp
  | cons a t ih =>
    by_cases h : p a
    · simp [List.dropWhile_cons, h, ih]
    · simp [List.dropWhile_cons, h]

/-- Applying `dropWhile` never lengthens a list. -/
theorem dropWhile_length_le {α : Type} (p : α → Bool) (l : List α) :
    (l.dropWhile p).length ≤ l.length := by
  induction l with
  | nil => simp
  | cons a t ih =>
    by_cases h : p a
    · rw [List.dropWhile_cons]
      simp only [h, if_true]
      exact Nat.le_trans ih (Nat.le_succ _)
    · simp [List.dropWhile_cons, h]

/-- Applying `dropWhile` to a list ending in `a` yields `[]` or a list ending in
`a`. -/
theorem dropWhile_concat_cases {α : Type} (p : α → Bool) (l : List α)
    (a : α) :
    (l ++ [a]).dropWhile p = [] ∨
    ∃ u, (l ++ [a]).dropWhile p = u ++ [a] := by
  induction l with
  | nil =>
    by_cases h : p a
    · left; simp [List.dropWhile_cons, h]
    · right; exact ⟨[], by simp [List.dropWhile_cons, h]⟩
  | cons b m ih =>
    by_cases h : p b
    · simpa [List.dropWhile_cons, h] using ih
    · right; exact ⟨b :: m, by simp [List.dropWhile_cons, h]⟩

/-- The function `dropTrailWs` is idempotent. -/
theorem dropTrailWs_idem (l : List Char) :
    dropTrailWs (dropTrailWs l) = dropTrailWs l := by
  simp [dropTrailWs, dropWhile_self_idem]

/-- Applying `dropTrailWs` to a cons gives `[]` or keeps the same head. -/
theorem dropTrailWs_cons_cases (a : Char) (t : List Char) :
    dropTrailWs (a :: t) = [] ∨
    ∃ u, dropTrailWs (a :: t) = a :: u := by
  have h := dropWhile_concat_cases isWs t.reverse a
  rcases h with h | ⟨u, h⟩
  · left
    simp [dropTrailWs, List.reverse_cons, h]
  · right
    exact ⟨u.reverse, by simp [dropTrailWs, List.reverse_cons, h]⟩

/-- If a list survives `dropWhile isWs`, so does its trailing-stripped
version. -/
theorem dropWhile_dropTrailWs (l : List Char)
    (h : l.dropWhile isWs = l) :
    (dropTrailWs l).dropWhile isWs = dropTrailWs l := by
  cases l with
  | nil => simp [dropTrailWs]
  | cons a t =>
    have ha : isWs a = false := by
      by_contra hcon
      have ha' : isWs a = true := by
        cases hx : isWs a
        · exact absurd hx hcon
        · rfl
      have hlen := dropWhile_length_le isWs t
      rw [List.dropWhile_cons, ha'] at h
      have := congrArg List.length h
      simp at this
      omega
    rcases dropTrailWs_cons_cases a t with hc | ⟨u, hc⟩
    · simp [hc]
    · simp [hc, List.dropWhile_cons, ha]

/-- The function `stripWs` is idempotent (Python `strip` applied twice). -/
theorem stripWs_idem (l : List Char) : stripWs (stripWs l) = stripWs l := by
  have h1 : (dropTrailWs (l.dropWhile isWs)).dropWhile isWs =
      dropTrailWs (l.dropWhile isWs) :=
    dropWhile_dropTrailWs _ (dropWhile_self_idem isWs l)
  calc stripWs (stripWs l)
      = dropTrailWs ((dropTrailWs (l.dropWhile isWs)).dropWhile isWs) :=
        rfl
    _ = dropTrailWs (dropTrailWs (l.dropWhile isWs)) := by rw [h1]
    _ = dropTrailWs (l.dropWhile isWs) := dropTrailWs_idem _
    _ = stripWs l := rfl

/-- The function `pstrip` is idempotent. -/
theorem pstrip_idem (s : String) : pstrip (pstrip s) = pstrip s :=
  congrArg String.mk (stripWs_idem s.data)

/-- A successful `pyStartsWith` exhibits an append decomposition. -/
theorem pyStartsWith_append : ∀ (p s : List Char),
    pyStartsWith p s = true → ∃ r, s = p ++ r := by
  intro p
  induction p with
  | nil => exact fun s _ => ⟨s, rfl⟩
  | cons a ps ih =>
    intro s h
    cases s with
    | nil => simp [pyStartsWith] at h
    | cons c cs =>
      simp only [pyStartsWith, Bool.and_eq_true, beq_iff_eq] at h
      obtain ⟨rfl, h2⟩ := h
      obtain ⟨r, rfl⟩ := ih cs h2
      exact ⟨r, rfl⟩

/-- The first token of any string extending `'kubectl '` is `kubectl`. -/
theorem firstToken_kubectlSp (rest : List Char) :
    firstToken (kubectlSp ++ rest) = some kubectlTok := rfl

/-! ## Claim C1 -/

/-- Claim C1 as stated is refuted by an exception inside
`build_kubeconfig` after `tempfile.mkstemp` has created the file but
before the path is returned: `kc_path` is never assigned, the `finally`
block's `if kc_path` guard skips the removal, and the temporary
credential file survives the call (here the call raised, one of the exit
paths the claim enumerates). -/
theorem c1_counterexample :
    (deploy_cleanup [] "/tmp/kubeconf_ab12.yaml" .raisesAfterCreate
      (.completes true "" "")).2 = ["/tmp/kubeconf_ab12.yaml"] := rfl

/-- Claim C1 (amended): whenever `build_kubeconfig` returns the temporary
credential file's path to the `deploy` handler, the `finally` block
removes that file on every exit path — success, kubectl failure, or an
exception raised during the apply — so the file does not exist after the
call returns (the filesystem is exactly as before); if `mkstemp` itself
fails no file is created at all.  Only an exception between file creation
and path return inside `build_kubeconfig` escapes the guarantee. -/
theorem c1_temp_credential_cleanup (fs : List String) (tmpPath : String)
    (runBeh : RunBeh) (hne : tmpPath ≠ "") (hfresh : tmpPath ∉ fs) :
    (deploy_cleanup fs tmpPath .ok runBeh).2 = fs ∧
    tmpPath ∉ (deploy_cleanup fs tmpPath .ok runBeh).2 ∧
    (deploy_cleanup fs tmpPath .raisesBeforeCreate runBeh).2 = fs := by
  have h2 : (deploy_cleanup fs tmpPath .ok runBeh).2 = fs := by
    cases runBeh <;> simp [deploy_cleanup, hne]
  exact ⟨h2, by rw [h2]; exact hfresh, by simp [deploy_cleanup]⟩

/-- Witness for C1 at a concrete run. -/
theorem c1_temp_credential_cleanup_witness :
    (deploy_cleanup ["app.py"] "/tmp/kubeconf_x.yaml" .ok
      (.completes true "deployment created" "")).2 = ["app.py"] ∧
    "/tmp/kubeconf_x.yaml" ∉
      (deploy_cleanup ["app.py"] "/tmp/kubeconf_x.yaml" .ok
        (.completes true "deployment created" "")).2 ∧
    (deploy_cleanup ["app.py"] "/tmp/kubeconf_x.yaml" .raisesBeforeCreate
      (.completes true "deployment created" "")).2 = ["app.py"] :=
  c1_temp_credential_cleanup ["app.py"] "/tmp/kubeconf_x.yaml"
    (.completes true "deployment created" "") (by decide) (by decide)

/-! ## Claim C2 -/

/-- Claim C2: a custom command is accepted for execution only if its
first whitespace-separated token equals `kubectl`; any command whose
first token is not `kubectl` spawns no process, and when non-empty it is
rejected by the untrusted-command check.  (The source's guard is
`command.startswith('kubectl ')`, which implies the first-token
condition.) -/
theorem c2_untrusted_command_gate (command : List Char) :
    (firstToken command ≠ some kubectlTok →
      (∀ argv, execute_custom command ≠ .spawnArgs argv) ∧
      (command ≠ [] →
        execute_custom command = .reject .untrustedCommand)) ∧
    (∀ argv, execute_custom command = .spawnArgs argv →
      firstToken command = some kubectlTok) := by
  have hkey : pyStartsWith kubectlSp command = true →
      firstToken command = some kubectlTok := by
    intro hsw
    obtain ⟨r, rfl⟩ := pyStartsWith_append _ _ hsw
    exact firstToken_kubectlSp r
  constructor
  · intro hne
    have hnot : pyStartsWith kubectlSp command = false := by
      cases hsw : pyStartsWith kubectlSp command
      · rfl
      · exact absurd (hkey hsw) hne
    refine ⟨fun argv => ?_, fun hcne => ?_⟩
    · by_cases hc : command = [] <;>
        simp [execute_custom, hc, hnot]
    · simp [execute_custom, hcne, hnot]
  · intro argv hsp
    by_cases hc : command = []
    · simp [execute_custom, hc] at hsp
    · cases hsw : pyStartsWith kubectlSp command
      · simp [execute_custom, hc, hsw] at hsp
      · exact hkey hsw

/-- Witness for C2: `ls -la` is rejected as untrusted. -/
theorem c2_untrusted_command_gate_witness :
    execute_custom ("ls -la".data) = .reject .untrustedCommand :=
  ((c2_untrusted_command_gate "ls -la".data).1 (by decide)).2 (by decide)

/-! ## Claim C3 -/

/-- Claim C3 as stated is refuted: a successful `connect_cluster` stores
the bearer token verbatim in the server-side session
(`session['cluster_token'] = token`), and `validate_cluster_connection`
has already written it into the shared persistent kubectl configuration
(`kubectl config set-credentials ... --token=...`), so the token outlives
the invocation on both counts. -/
theorem c3_counterexample :
    (connect_cluster "https://api.example:6443" "prod" "sekret-token"
      emptySession emptyKubeCfg ⟨0, "node1 Ready", ""⟩).1.cluster_token =
      some "sekret-token" ∧
    (connect_cluster "https://api.example:6443" "prod" "sekret-token"
      emptySession emptyKubeCfg ⟨0, "node1 Ready", ""⟩).2.1.users =
      [("prod-user", "sekret-token")] := by decide

/-- Claim C3 (amended): the bearer token never appears verbatim in the
persisted audit record — for any two `connect_cluster` runs differing
only in the (non-empty) token value, with the same probe outcome, the
audit records written are identical.  (The token does, however, outlive
the invocation: it is stored in the session and in the shared kubectl
configuration, as the counterexample shows.) -/
theorem c3_audit_token_noninterference (endpoint cluster_name t1 t2 :
    String) (sess1 sess2 : Session) (cfg : KubeCfg) (probe : ProcResult)
    (h1 : t1 ≠ "") (h2 : t2 ≠ "") :
    (connect_cluster endpoint cluster_name t1 sess1 cfg probe).2.2 =
    (connect_cluster endpoint cluster_name t2 sess2 cfg probe).2.2 := by
  by_cases he : endpoint = "" <;> by_cases hc : cluster_name = "" <;>
    by_cases hp : probe.rc = 0 <;>
      simp [connect_cluster, validate_cluster_connection, he, hc, h1, h2,
        hp]

/-- Witness for C3 at two concrete tokens. -/
theorem c3_audit_token_noninterference_witness :
    (connect_cluster "https://a.example" "c1" "tokenA" emptySession
      emptyKubeCfg ⟨0, "ok", ""⟩).2.2 =
    (connect_cluster "https://a.example" "c1" "tokenB" emptySession
      emptyKubeCfg ⟨0, "ok", ""⟩).2.2 :=
  c3_audit_token_noninterference "https://a.example" "c1" "tokenA"
    "tokenB" emptySession emptySession emptyKubeCfg ⟨0, "ok", ""⟩
    (by decide) (by decide)

/-! ## Claim C4 -/

/-- Claim C4 as stated is refuted on a negative replica count: `int('-3')`
succeeds, so `create_deployment` renders `spec.replicas = -3` and spawns
the apply process instead of reporting a validation error. -/
theorem c4_counterexample :
    (create_deployment "web" "nginx:latest" "-3" "80" "default"
      []).isSpawn = true ∧
    Option.map DeploymentManifest.replicas
      (generate_deployment_manifest "web" "nginx:latest" "-3" "80"
        "default") = some (-3) := by decide

/-- Claim C4 (amended): the replica count is parsed with Python `int()`
(which also accepts negative values), the rendered manifest's
`spec.replicas` equals the parsed integer, and for every non-numeric
replica input the generator raises, the handler lands in its `except`
branch, and no external process is spawned. -/
theorem c4_replicas_parsing (name image replicas port namespaceName :
    String) (env : List (String × String)) :
    (pythonInt replicas.data = none →
      create_deployment name image replicas port namespaceName env =
        .validationError) ∧
    (∀ s m, create_deployment name image replicas port namespaceName env =
        .spawnApply s m → pythonInt replicas.data = some m.replicas) := by
  constructor
  · intro hnone
    simp [create_deployment, generate_deployment_manifest, hnone]
  · intro s m hsp
    rcases hr : pythonInt replicas.data with _ | r <;>
      rcases hp : pythonInt port.data with _ | p <;>
        simp [create_deployment, generate_deployment_manifest, hr, hp]
          at hsp
    rw [← hsp.2]

/-- Witness for C4: a non-numeric replica count yields the validation
branch with no spawn. -/
theorem c4_replicas_parsing_witness :
    create_deployment "web" "nginx:latest" "three" "80" "default" [] =
      .validationError :=
  (c4_replicas_parsing "web" "nginx:latest" "three" "80" "default" []).1
    (by decide)

/-! ## Claim C5 -/

/-- Claim C5 as stated is refuted: the apply process spawned by
`create_deployment` (`subprocess.Popen` + `communicate` with no `timeout`
argument) is not bounded by any timeout. -/
theorem c5_counterexample :
    DeployAction.invocationTimeout
      (create_deployment "web" "nginx:latest" "3" "80" "default" []) =
      some none := by decide

/-- Claim C5 (amended): the custom-command path
(`execute_kubectl_command`) bounds its process by a 30-second timeout and
reports `'Command timed out after 30 seconds'` on expiry, and the raw
manifest path (`execute_yaml`) bounds its process by a 60-second timeout,
kills the process on expiry and records `'Command timed out'`; but the
structured deployment apply spawned by `create_deployment` has no timeout
at all. -/
theorem c5_timeouts :
    (∀ args env, (executeKubectlSpawn args env).timeoutSec = some 30) ∧
    (execute_kubectl_command .timesOut =
      (false, "Command timed out after 30 seconds")) ∧
    (∀ y ns env beh,
      (execute_yaml y ns env beh).spawn.timeoutSec = some 60) ∧
    (∀ y ns env, (execute_yaml y ns env .timesOut).killed = true ∧
      (execute_yaml y ns env .timesOut).lastOutput = "Command timed out")
      ∧
    (∀ name image r p nsn env s m,
      create_deployment name image r p nsn env = .spawnApply s m →
      s.timeoutSec = none) := by
  refine ⟨fun args env => rfl, rfl, fun y ns env beh => ?_,
    fun y ns env => ⟨rfl, rfl⟩, ?_⟩
  · cases beh <;> rfl
  · intro name image r p nsn env s m hsp
    rcases hr : pythonInt r.data with _ | rv <;>
      rcases hp : pythonInt p.data with _ | pv <;>
        simp [create_deployment, generate_deployment_manifest, hr, hp]
          at hsp
    rw [← hsp.1]

/-- Witness for C5: the concrete apply spawn of a valid deployment has no
timeout. -/
theorem c5_timeouts_witness :
    Spawn.timeoutSec
      { argv := ["kubectl", "apply", "-f", "-"], env := [],
        stdinText := some "manifest_json", timeoutSec := none } = none :=
  c5_timeouts.2.2.2.2 "web" "nginx:latest" "3" "80" "default" []
    { argv := ["kubectl", "apply", "-f", "-"], env := [],
      stdinText := some "manifest_json", timeoutSec := none }
    { apiVersion := "apps/v1", kind := "Deployment", name := "web",
      namespaceName := "default", replicas := 3,
      selectorMatchLabelsApp := "web", templateLabelsApp := "web",
      containerName := "web", containerImage := "nginx:latest",
      containerPort := 80 }
    (by decide)

/-! ## Claim C6 -/

/-- Claim C6 as stated is refuted on a probe that fails with empty
stderr: the failure reason returned is the fixed fallback string
`'Connectivity check failed'` (from `conn.stderr or "Connectivity check
failed"`), not the probe's (empty) stderr. -/
theorem c6_counterexample :
    (run_kubectl_apply "kind: Pod" "/tmp/kubeconf_q.yaml" "default" []
      ⟨1, "", ""⟩ ⟨0, "", ""⟩).stderr = "Connectivity check failed" := by
  decide

/-- Claim C6 (amended): when the pre-flight `kubectl get ns` probe exits
non-zero, the primary apply is never attempted, the call reports failure,
and the probe's stderr is returned as the failure reason — except that an
empty probe stderr is replaced by the fixed message `'Connectivity check
failed'`; conversely the apply process is spawned only when the probe
exits zero. -/
theorem c6_preflight_probe_gating (yamlText kcPath nsn : String)
    (env : List (String × String)) (probe applyBeh : ProcResult) :
    (probe.rc ≠ 0 →
      (∀ s ∈ (run_kubectl_apply yamlText kcPath nsn env probe
          applyBeh).spawns, isApplySpawn s = false) ∧
      (run_kubectl_apply yamlText kcPath nsn env probe applyBeh).ok =
        false ∧
      (run_kubectl_apply yamlText kcPath nsn env probe applyBeh).stderr =
        orDefault probe.err "Connectivity check failed") ∧
    ((∃ s ∈ (run_kubectl_apply yamlText kcPath nsn env probe
        applyBeh).spawns, isApplySpawn s = true) → probe.rc = 0) := by
  by_cases hp : probe.rc = 0
  · refine ⟨fun hne => absurd hp hne, fun _ => hp⟩
  · constructor
    · intro _
      refine ⟨?_, ?_, ?_⟩
      · intro s hs
        simp [run_kubectl_apply, hp] at hs
        rw [hs]
        simp [isApplySpawn]
      · simp [run_kubectl_apply, hp]
      · simp [run_kubectl_apply, hp]
    · intro ⟨s, hs, happ⟩
      simp [run_kubectl_apply, hp] at hs
      rw [hs] at happ
      simp [isApplySpawn] at happ

/-- Witness for C6 at a concrete failing probe with non-empty stderr. -/
theorem c6_preflight_probe_gating_witness :
    (run_kubectl_apply "kind: Pod" "/tmp/kubeconf_w.yaml" "default" []
      ⟨1, "", "connection refused"⟩ ⟨0, "", ""⟩).ok = false ∧
    (run_kubectl_apply "kind: Pod" "/tmp/kubeconf_w.yaml" "default" []
      ⟨1, "", "connection refused"⟩ ⟨0, "", ""⟩).stderr =
      orDefault "connection refused" "Connectivity check failed" :=
  ⟨((c6_preflight_probe_gating "kind: Pod" "/tmp/kubeconf_w.yaml"
      "default" [] ⟨1, "", "connection refused"⟩ ⟨0, "", ""⟩).1
      (by decide)).2.1,
   ((c6_preflight_probe_gating "kind: Pod" "/tmp/kubeconf_w.yaml"
      "default" [] ⟨1, "", "connection refused"⟩ ⟨0, "", ""⟩).1
      (by decide)).2.2⟩

/-! ## Claim C7 -/

/-- Claim C7 as stated is refuted in version4: with `service_port = 8080`
and no `service_target_port` in the form, `create_service` defaults the
target port to the fixed string `'80'`, so the rendered manifest's
`targetPort` is `80`, not `8080`. -/
theorem c7_counterexample :
    Option.map ServiceManifest.targetPort
      (create_service_manifest
        [("service_name", "web"), ("service_port", "8080")]) = some 80 ∧
    Option.map ServiceManifest.port
      (create_service_manifest
        [("service_name", "web"), ("service_port", "8080")]) =
      some 8080 := by decide

/-- Claim C7 (amended): in the version1 `service` handler, when the form
supplies no `targetPort` field the rendered YAML's `targetPort` equals
the supplied `port`; in version4, an absent `service_target_port`
defaults to the fixed string `'80'` regardless of the port, as the
counterexample shows. -/
theorem c7_targetPort_defaults_to_port_v1 (form : List (String × String))
    (h : formGet form "targetPort" = none) :
    (service_yaml_v1 form).targetPort = (service_yaml_v1 form).port := by
  simp only [service_yaml_v1, h, Option.getD]
  exact pstrip_idem _

/-- Witness for C7: `port=8080`, no `targetPort`, in version1. -/
theorem c7_targetPort_defaults_to_port_v1_witness :
    (service_yaml_v1 [("name", "web"), ("port", "8080")]).targetPort =
    (service_yaml_v1 [("name", "web"), ("port", "8080")]).port :=
  c7_targetPort_defaults_to_port_v1 [("name", "web"), ("port", "8080")]
    (by decide)

/-! ## Claim C8 -/

/-- Claim C8 as stated is refuted in version2/version4:
`validate_cluster_connection` mutates the shared persistent kubectl
configuration (its `kubectl config set-* / use-context` calls add a
cluster, a user holding the token, a context, and switch the current
context), process-wide state visible to every other concurrent call. -/
theorem c8_counterexample :
    (validate_cluster_connection "https://api.example:6443"
      "sekret-token" "prod" emptyKubeCfg ⟨0, "nodes", ""⟩).2 ≠
      emptyKubeCfg := by decide

/-- Claim C8 (amended): in version1, `run_kubectl_apply` applies the
`KUBECONFIG` override only to the copied environment handed to its child
processes — `os.environ` of the parent is identical before and after
the call — while the version2/version4 connection path instead mutates
the shared kubectl configuration, as the counterexample shows. -/
theorem c8_env_override_scoped (yamlText kcPath nsn : String)
    (env : List (String × String)) (probe applyBeh : ProcResult) :
    (run_kubectl_apply yamlText kcPath nsn env probe applyBeh).envAfter =
      env ∧
    ∀ s ∈ (run_kubectl_apply yamlText kcPath nsn env probe
        applyBeh).spawns, s.env = envSet env "KUBECONFIG" kcPath := by
  by_cases hp : probe.rc = 0 <;>
    constructor <;>
      simp [run_kubectl_apply, hp]

/-- Witness for C8 at a concrete parent environment: the parent
environment is returned unchanged and the probe spawn's environment is
the override of that copy. -/
theorem c8_env_override_scoped_witness :
    (run_kubectl_apply "kind: Pod" "/tmp/kubeconf_e.yaml" "default"
      [("PATH", "/usr/bin")] ⟨0, "", ""⟩ ⟨0, "", ""⟩).envAfter =
      [("PATH", "/usr/bin")] ∧
    Spawn.env
      { argv := ["kubectl", "get", "ns"],
        env := envSet [("PATH", "/usr/bin")] "KUBECONFIG"
          "/tmp/kubeconf_e.yaml",
        stdinText := none, timeoutSec := none } =
      envSet [("PATH", "/usr/bin")] "KUBECONFIG" "/tmp/kubeconf_e.yaml" :=
  ⟨(c8_env_override_scoped "kind: Pod" "/tmp/kubeconf_e.yaml" "default"
      [("PATH", "/usr/bin")] ⟨0, "", ""⟩ ⟨0, "", ""⟩).1,
   (c8_env_override_scoped "kind: Pod" "/tmp/kubeconf_e.yaml" "default"
      [("PATH", "/usr/bin")] ⟨0, "", ""⟩ ⟨0, "", ""⟩).2 _ (by decide)⟩

/-! ## Claim C9 -/

/-- Claim C9: every generated Deployment manifest carries the
descriptor's name as its metadata name, its selector's `app` match
label, its pod template's `app` label, and its single container's name,
so the selector always matches the manifest's own pod template. -/
theorem c9_selector_matches_template (name image replicas port
    namespaceName : String) (m : DeploymentManifest)
    (h : generate_deployment_manifest name image replicas port
      namespaceName = some m) :
    m.name = name ∧ m.selectorMatchLabelsApp = name ∧
    m.templateLabelsApp = name ∧ m.containerName = name ∧
    m.selectorMatchLabelsApp = m.templateLabelsApp := by
  rcases hr : pythonInt replicas.data with _ | r <;>
    rcases hp : pythonInt port.data with _ | p <;>
      simp [generate_deployment_manifest, hr, hp] at h
  rw [← h]
  exact ⟨rfl, rfl, rfl, rfl, rfl⟩

/-- Witness for C9 at a concrete descriptor. -/
theorem c9_selector_matches_template_witness :
    DeploymentManifest.name
      { apiVersion := "apps/v1", kind := "Deployment", name := "web",
        namespaceName := "default", replicas := 3,
        selectorMatchLabelsApp := "web", templateLabelsApp := "web",
        containerName := "web", containerImage := "nginx:latest",
        containerPort := 80 } = "web" ∧
    DeploymentManifest.selectorMatchLabelsApp
      { apiVersion := "apps/v1", kind := "Deployment", name := "web",
        namespaceName := "default", replicas := 3,
        selectorMatchLabelsApp := "web", templateLabelsApp := "web",
        containerName := "web", containerImage := "nginx:latest",
        containerPort := 80 } = "web" ∧
    DeploymentManifest.templateLabelsApp
      { apiVersion := "apps/v1", kind := "Deployment", name := "web",
        namespaceName := "default", replicas := 3,
        selectorMatchLabelsApp := "web", templateLabelsApp := "web",
        containerName := "web", containerImage := "nginx:latest",
        containerPort := 80 } = "web" ∧
    DeploymentManifest.containerName
      { apiVersion := "apps/v1", kind := "Deployment", name := "web",
        namespaceName := "default", replicas := 3,
        selectorMatchLabelsApp := "web", templateLabelsApp := "web",
        containerName := "web", containerImage := "nginx:latest",
        containerPort := 80 } = "web" ∧
    DeploymentManifest.selectorMatchLabelsApp
      { apiVersion := "apps/v1", kind := "Deployment", name := "web",
        namespaceName := "default", replicas := 3,
        selectorMatchLabelsApp := "web", templateLabelsApp := "web",
        containerName := "web", containerImage := "nginx:latest",
        containerPort := 80 } =
      DeploymentManifest.templateLabelsApp
      { apiVersion := "apps/v1", kind := "Deployment", name := "web",
        namespaceName := "default", replicas := 3,
        selectorMatchLabelsApp := "web", templateLabelsApp := "web",
        containerName := "web", containerImage := "nginx:latest",
        containerPort := 80 } :=
  c9_selector_matches_template "web" "nginx:latest" "3" "80" "default" _
    (by decide)

/-! ## Claim C10 -/

/-- Claim C10: in `build_kubeconfig`, `skip_tls` takes precedence over a
supplied CA certificate — when it is set the document carries
`insecure-skip-tls-verify: true` and no `certificate-authority-data`
even if a CA PEM was provided; the base64 of the PEM is embedded exactly
when `skip_tls` is false and a (non-empty, hence truthy) CA PEM is
given; with neither, both keys are absent. -/
theorem c10_skip_tls_precedence (api_server token namespaceName : String)
    (skip_tls : Bool) (ca_pem : Option (List Nat)) :
    (skip_tls = true →
      (build_kubeconfig_doc api_server token namespaceName skip_tls
        ca_pem).insecureSkipTlsVerify = true ∧
      (build_kubeconfig_doc api_server token namespaceName skip_tls
        ca_pem).certificateAuthorityData = none) ∧
    (skip_tls = false → caTruthy ca_pem = true →
      (build_kubeconfig_doc api_server token namespaceName skip_tls
        ca_pem).certificateAuthorityData =
        some (base64Encode (ca_pem.getD [])) ∧
      (build_kubeconfig_doc api_server token namespaceName skip_tls
        ca_pem).insecureSkipTlsVerify = false) ∧
    (skip_tls = false → caTruthy ca_pem = false →
      (build_kubeconfig_doc api_server token namespaceName skip_tls
        ca_pem).certificateAuthorityData = none ∧
      (build_kubeconfig_doc api_server token namespaceName skip_tls
        ca_pem).insecureSkipTlsVerify = false) := by
  cases skip_tls <;>
    by_cases hca : caTruthy ca_pem = true <;>
      refine ⟨fun h1 => ?_, fun h1 h2 => ?_, fun h1 h2 => ?_⟩ <;>
        simp_all [build_kubeconfig_doc]

/-- Witness for C10: `skip_tls` set together with a supplied CA PEM
yields the insecure flag and no embedded CA data. -/
theorem c10_skip_tls_precedence_witness :
    (build_kubeconfig_doc "https://api.example:6443" "tok" "default" true
      (some [45, 45, 45])).insecureSkipTlsVerify = true ∧
    (build_kubeconfig_doc "https://api.example:6443" "tok" "default" true
      (some [45, 45, 45])).certificateAuthorityData = none :=
  (c10_skip_tls_precedence "https://api.example:6443" "tok" "default"
    true (some [45, 45, 45])).1 (by decide)

end TriggerDeployment
